import Mathlib

/-!
Verification of `src/rl_darts/algorithms/rainbow/agent_distributed.py`
(the `DistributedDQN` distributed agent) against its specification.

The Python module is shallowly embedded below: configuration values become a
`Config` structure (Python ints as `ℕ`/`ℤ`, Python floats as `ℚ` where only
exact arithmetic and truthiness matter, and as `ℝ` where the epsilon schedule
takes real powers), the reverb table/limiter/selector constructor calls become
inductive descriptions, and the process topology produced by `build` becomes a
`Topology` value.  Behaviour of the external reverb library (FIFO eviction,
prioritized sampling) is modelled from the specification, as marked on the
definitions concerned.
-/

namespace BrainAutorl

/-- One unit of experience as the spec's data model describes it (observation,
action, reward, discount, next observation); the agent module treats it as
opaque data. -/
structure Transition where
  observation : ℚ
  action : ℤ
  reward : ℚ
  discount : ℚ
  nextObservation : ℚ
deriving DecidableEq

/-- The table name `adders.DEFAULT_PRIORITY_TABLE` from acme. -/
def DEFAULT_PRIORITY_TABLE : String := "priority_table"

/-- Description of the `reverb.rate_limiters` constructor calls made by
`DistributedDQN.replay`. -/
inductive RateLimiter where
  | sampleToInsertRatioLimiter (min_size_to_sample : ℕ) (samples_per_insert : ℚ)
      (error_buffer : ℚ)
  | minSizeLimiter (min_size_to_sample : ℕ)
deriving DecidableEq

/-- Description of the `reverb.selectors` constructor calls made by
`DistributedDQN.replay`. -/
inductive Selector where
  | prioritized (priority_exponent : ℚ)
  | fifo
deriving DecidableEq

/-- Description of a `reverb.Table(...)` constructor call. -/
structure Table where
  name : String
  sampler : Selector
  remover : Selector
  max_size : ℕ
  rate_limiter : RateLimiter
deriving DecidableEq

/-- The configuration surface of `DistributedDQN.__init__` (the fields the
claims touch). -/
structure Config where
  num_actors : ℕ
  num_caches : ℕ
  batch_size : ℕ
  samples_per_insert : ℚ
  min_replay_size : ℕ
  max_replay_size : ℕ
  priority_exponent : ℚ
  default_priority : ℚ
  n_step : ℕ
  discount : ℚ
  variable_update_period : ℕ
  max_actor_steps : ℕ
  num_evaluators : ℕ
deriving DecidableEq

/-- The error an `assert` statement raises. -/
inductive InitError where
  | assertionError
deriving DecidableEq

/-- `DistributedDQN.__init__`: its first statement is `assert num_caches >= 1`
(the argument is a Python int, so `ℤ`); only when the assertion passes are the
fields stored. -/
def DistributedDQN.init (num_actors : ℕ) (num_caches : ℤ) (batch_size : ℕ)
    (samples_per_insert : ℚ) (min_replay_size : ℕ) (max_replay_size : ℕ)
    (priority_exponent : ℚ) (default_priority : ℚ) (n_step : ℕ) (discount : ℚ)
    (variable_update_period : ℕ) (max_actor_steps : ℕ) (num_evaluators : ℕ) :
    Except InitError Config :=
  if num_caches < 1 then Except.error InitError.assertionError
  else Except.ok
    { num_actors := num_actors
      num_caches := num_caches.toNat
      batch_size := batch_size
      samples_per_insert := samples_per_insert
      min_replay_size := min_replay_size
      max_replay_size := max_replay_size
      priority_exponent := priority_exponent
      default_priority := default_priority
      n_step := n_step
      discount := discount
      variable_update_period := variable_update_period
      max_actor_steps := max_actor_steps
      num_evaluators := num_evaluators }

/-- The limiter chosen inside `DistributedDQN.replay`: Python's
`if self._samples_per_insert:` is the truthiness test, i.e. `≠ 0` for a
number. -/
def DistributedDQN.replayLimiter (c : Config) : RateLimiter :=
  if c.samples_per_insert ≠ 0 then
    RateLimiter.sampleToInsertRatioLimiter c.min_replay_size c.samples_per_insert
      (c.batch_size : ℚ)
  else
    RateLimiter.minSizeLimiter c.min_replay_size

/-- `DistributedDQN.replay`: the single `reverb.Table` the method returns. -/
def DistributedDQN.replay (c : Config) : List Table :=
  [{ name := DEFAULT_PRIORITY_TABLE
     sampler := Selector.prioritized c.priority_exponent
     remover := Selector.fifo
     max_size := c.max_replay_size
     rate_limiter := DistributedDQN.replayLimiter c }]

/-- Modelled from the spec: one insertion into the reverb table with a `Fifo`
remover, which is external library code; the spec says "appends one item,
evicting the oldest item first if at capacity" and "removal policy =
oldest-first (FIFO) once at capacity". -/
def fifoInsert (max_size : ℕ) (items : List α) (x : α) : List α :=
  if items.length < max_size then items ++ [x] else items.tail ++ [x]

/-- A whole sequence of insertions into an initially empty FIFO table. -/
def insertAll (max_size : ℕ) (inserts : List α) : List α :=
  inserts.foldl (fifoInsert max_size) []

/-- Modelled from the spec: the weight the reverb `Prioritized` selector gives
one stored item, which is external library code; the spec says "sampling
policy = probability proportional to priority^priority_exponent". -/
noncomputable def prioritizedWeight (priority_exponent : ℝ) (priority : ℝ) : ℝ :=
  priority ^ priority_exponent

/-- Modelled from the spec: the probability that the `Prioritized` selector
draws item `i` from a table whose items carry the listed priorities. -/
noncomputable def prioritizedProb (priority_exponent : ℝ) (priorities : List ℝ)
    (i : ℕ) : ℝ :=
  prioritizedWeight priority_exponent (priorities.getD i 0) /
    ((priorities.map (prioritizedWeight priority_exponent)).sum)

/-- `np.linspace(a, b, n)` with its default `endpoint=True`: `n` evenly spaced
rationals from `a` to `b` (for `n = 1` numpy returns `[a]`). -/
def linspace (a b : ℚ) (n : ℕ) : List ℚ :=
  if n = 0 then []
  else if n = 1 then [a]
  else (List.range n).map (fun (i : ℕ) => a + (i : ℚ) * (b - a) / ((n : ℚ) - 1))

/-- `np.logspace(1, 8, n, base=0.4)`: the base raised to each linspace
exponent (a real power, since the exponents are fractional in general). -/
noncomputable def logspaceBase04 (n : ℕ) : List ℝ :=
  (linspace 1 8 n).map (fun (e : ℚ) => (0.4 : ℝ) ^ (e : ℝ))

/-- The per-actor epsilons generated in `DistributedDQN.build`:
`np.flip(np.logspace(1, 8, num_actors, base=0.4), axis=0)`. -/
noncomputable def epsilons (num_actors : ℕ) : List ℝ :=
  (logspaceBase04 num_actors).reverse

/-- A variable source a node of the topology reads parameters from: the
learner node itself, or one of the cacher nodes. -/
inductive VarSource where
  | learner
  | cacher (idx : ℕ)
deriving DecidableEq

/-- An evaluator node of the built program: its variable source and its id. -/
structure EvalNode where
  source : VarSource
  evalId : ℕ

/-- An actor node of the built program: its variable source and its
exploration epsilon. -/
structure ActorNode where
  source : VarSource
  epsilon : ℝ

/-- The process topology `DistributedDQN.build` declares. -/
structure Topology where
  replayTables : List Table
  evaluators : List EvalNode
  numCachers : ℕ
  actors : List ActorNode

/-- Python's `enumerate`, indexing from `k`. -/
def enumFromNat (k : ℕ) : List α → List (ℕ × α)
  | [] => []
  | x :: xs => (k, x) :: enumFromNat (k + 1) xs

/-- `DistributedDQN.build`: evaluators `0..num_evaluators-1` are wired to the
learner node; `num_caches` cacher nodes are created; actor `actor_id` (from
`enumerate(epsilons)`) is wired to `sources[actor_id % len(sources)]`. -/
noncomputable def DistributedDQN.build (c : Config) : Topology :=
  { replayTables := DistributedDQN.replay c
    evaluators := (List.range c.num_evaluators).map
      (fun i => { source := VarSource.learner, evalId := i })
    numCachers := c.num_caches
    actors := (enumFromNat 0 (epsilons c.num_actors)).map
      (fun p => { source := VarSource.cacher (p.1 % c.num_caches), epsilon := p.2 }) }

/-- How many actors of the built topology read from cacher `k`. -/
noncomputable def cacheLoad (c : Config) (k : ℕ) : ℕ :=
  ((DistributedDQN.build c).actors.filter
    (fun a => decide (a.source = VarSource.cacher k))).length

/-- The `NStepTransitionAdder(...)` constructor call made in
`DistributedDQN.actor`: the `priority_fns` dict maps the default priority
table to `lambda x: self._default_priority`. -/
structure NStepTransitionAdder where
  n_step : ℕ
  discount : ℚ
  priority_fns : List (String × (Transition → ℚ))

/-- The adder `DistributedDQN.actor` builds. -/
def DistributedDQN.actorAdder (c : Config) : NStepTransitionAdder :=
  { n_step := c.n_step
    discount := c.discount
    priority_fns := [(DEFAULT_PRIORITY_TABLE, fun _ => c.default_priority)] }

/-- The evaluator process record `DistributedDQN.evaluator` assembles:
`use_test_env = (eval_id > 0)` is the argument handed to the environment
factory. -/
structure EvaluatorProc where
  envFactoryArg : Bool
  maxActorSteps : ℕ
  label : String
  evalId : ℕ

/-- `DistributedDQN.evaluator`. -/
def DistributedDQN.evaluator (c : Config) (eval_id : ℕ) : EvaluatorProc :=
  { envFactoryArg := decide (eval_id > 0)
    maxActorSteps := c.max_actor_steps
    label := "evaluator" ++ toString eval_id
    evalId := eval_id }

/-- The steps an actor or evaluator process performs, in program order:
first the construction statements of `DistributedDQN.actor` /
`DistributedDQN.evaluator`, then the environment actions its loop takes. -/
inductive ProcEvent where
  | makeEnvironment (useAlternate : Bool)
  | makeNetwork
  | createVariables
  | createVariableClient
  | updateAndWait
  | createAdder
  | createCounter
  | createSchedule
  | createActor
  | createLogger
  | createEnvLoop
  | createEvaluatorLoop
  | envAction (k : ℕ)
deriving DecidableEq

/-- The construction statements of `DistributedDQN.actor`, in source order:
the blocking `variable_client.update_and_wait()` sits between the variable
client's creation and everything that follows, ending with the
`acme.EnvironmentLoop`. -/
def actorConstructionTrace : List ProcEvent :=
  [ProcEvent.makeEnvironment false, ProcEvent.makeNetwork, ProcEvent.createVariables,
   ProcEvent.createVariableClient, ProcEvent.updateAndWait, ProcEvent.createAdder,
   ProcEvent.createCounter, ProcEvent.createSchedule, ProcEvent.createActor,
   ProcEvent.createLogger, ProcEvent.createEnvLoop]

/-- An actor's whole life: construction, then `steps` environment actions
taken by the loop the last construction step created. -/
def actorTrace (steps : ℕ) : List ProcEvent :=
  actorConstructionTrace ++ (List.range steps).map ProcEvent.envAction

/-- The construction statements of `DistributedDQN.evaluator`, in source
order (`use_test_env = (eval_id > 0)` picks the environment variant). -/
def evaluatorConstructionTrace (eval_id : ℕ) : List ProcEvent :=
  [ProcEvent.makeEnvironment (decide (eval_id > 0)), ProcEvent.makeNetwork,
   ProcEvent.createVariables, ProcEvent.createVariableClient, ProcEvent.updateAndWait,
   ProcEvent.createActor, ProcEvent.createCounter, ProcEvent.createEvaluatorLoop]

/-- An evaluator's whole life: construction, then `steps` environment
actions. -/
def evaluatorTrace (eval_id steps : ℕ) : List ProcEvent :=
  evaluatorConstructionTrace eval_id ++ (List.range steps).map ProcEvent.envAction

/-- Every environment action of a trace is preceded by a completed
`update_and_wait` parameter fetch. -/
def fetchBeforeAction (tr : List ProcEvent) : Prop :=
  ∀ i k, tr.getD i ProcEvent.makeNetwork = ProcEvent.envAction k →
    ∃ j, j < i ∧ tr.getD j ProcEvent.makeNetwork = ProcEvent.updateAndWait

/-- The configuration `DistributedDQN.__init__`'s default arguments build,
with 4 actors. -/
def defaultConfig : Config :=
  { num_actors := 4
    num_caches := 1
    batch_size := 256
    samples_per_insert := 32
    min_replay_size := 1000
    max_replay_size := 1000000
    priority_exponent := 0.6
    default_priority := 4
    n_step := 5
    discount := 0.99
    variable_update_period := 1000
    max_actor_steps := 25000000
    num_evaluators := 1 }

/-- A configuration with exponent one and a tiny table, for concrete checks. -/
def cfgPrioOne : Config :=
  { defaultConfig with priority_exponent := 1, max_replay_size := 2 }

/-- The spec's round-robin example: 10 actors over 3 caches. -/
def cfgRoundRobin : Config :=
  { defaultConfig with num_actors := 10, num_caches := 3 }

/-- A configuration with several caches and evaluators. -/
def cfgTopology : Config :=
  { defaultConfig with num_caches := 2, num_evaluators := 3 }

/-- A concrete transition. -/
def sampleTransition : Transition :=
  { observation := 0, action := 0, reward := 0, discount := 0, nextObservation := 0 }

/-! ## Helper lemmas -/

theorem fifoInsert_length_le {α : Type} (m : ℕ) (hm : 1 ≤ m) (l : List α) (x : α)
    (h : l.length ≤ m) : (fifoInsert m l x).length ≤ m := by
  unfold fifoInsert
  split
  next hlt => simp; omega
  next hge => simp [List.length_tail]; omega

theorem foldl_fifoInsert_length_le {α : Type} (m : ℕ) (hm : 1 ≤ m) :
    ∀ (inserts l : List α), l.length ≤ m → (inserts.foldl (fifoInsert m) l).length ≤ m
  | [], _, h => h
  | x :: xs, l, h =>
    foldl_fifoInsert_length_le m hm xs (fifoInsert m l x) (fifoInsert_length_le m hm l x h)

theorem insertAll_length_le {α : Type} (m : ℕ) (hm : 1 ≤ m) (inserts : List α) :
    (insertAll m inserts).length ≤ m :=
  foldl_fifoInsert_length_le m hm inserts [] (by simp)

/-! ## C1, C2, C10: the replay table and its rate limiter -/

/-- C1: `replay()` picks its rate limiter by cases on `samples_per_insert`:
truthy gives a sample-to-insert-ratio limiter with `min_size_to_sample =
min_replay_size` and the given ratio, falsy gives a pure minimum-size
limiter on `min_replay_size` with no ratio coupling. -/
theorem replay_limiter_cases (c : Config) :
    ∃ t : Table, DistributedDQN.replay c = [t] ∧
      (c.samples_per_insert ≠ 0 →
        t.rate_limiter = RateLimiter.sampleToInsertRatioLimiter c.min_replay_size
          c.samples_per_insert (c.batch_size : ℚ)) ∧
      (c.samples_per_insert = 0 →
        t.rate_limiter = RateLimiter.minSizeLimiter c.min_replay_size) := by
  refine ⟨_, rfl, fun h => ?_, fun h => ?_⟩ <;>
    simp [DistributedDQN.replayLimiter, h]

/-- C2: the single table `replay()` returns has maximum size
`max_replay_size` (and the FIFO store modelled from the spec never holds more
than that many items, evicting the oldest item once at capacity), a FIFO
remover, and a prioritized sampler with exponent `priority_exponent`, whose
sampling probability is proportional to `priority ^ priority_exponent`. -/
theorem replay_table_invariants (c : Config) (hms : 1 ≤ c.max_replay_size)
    (inserts : List Transition) (ps : List ℝ) (i : ℕ)
    (hsum : ((ps.map (prioritizedWeight (c.priority_exponent : ℝ))).sum) ≠ 0) :
    ∃ t : Table, DistributedDQN.replay c = [t] ∧
      t.max_size = c.max_replay_size ∧
      t.remover = Selector.fifo ∧
      t.sampler = Selector.prioritized c.priority_exponent ∧
      (insertAll c.max_replay_size inserts).length ≤ c.max_replay_size ∧
      (∀ (l : List Transition) (x : Transition), l.length = c.max_replay_size →
        fifoInsert c.max_replay_size l x = l.tail ++ [x]) ∧
      prioritizedProb (c.priority_exponent : ℝ) ps i *
          ((ps.map (prioritizedWeight (c.priority_exponent : ℝ))).sum) =
        prioritizedWeight (c.priority_exponent : ℝ) (ps.getD i 0) := by
  refine ⟨_, rfl, rfl, rfl, rfl, insertAll_length_le _ hms _, fun l x hl => ?_, ?_⟩
  · unfold fifoInsert
    rw [if_neg (by omega)]
  · exact div_mul_cancel₀ _ hsum

/-- Witness for C2 at a concrete configuration, insert sequence and priority
list. -/
theorem replay_table_invariants_witness :
    1 ≤ cfgPrioOne.max_replay_size ∧
      (insertAll cfgPrioOne.max_replay_size
        [sampleTransition, sampleTransition, sampleTransition]).length ≤
        cfgPrioOne.max_replay_size := by
  have he : ((cfgPrioOne.priority_exponent : ℚ) : ℝ) = 1 := by
    norm_num [show cfgPrioOne.priority_exponent = 1 from rfl]
  have hsum : ((([(1 : ℝ), 1, 8]).map
      (prioritizedWeight (cfgPrioOne.priority_exponent : ℝ))).sum) ≠ 0 := by
    simp [prioritizedWeight, he, Real.rpow_one]
    norm_num
  obtain ⟨t, -, -, -, -, hlen, -, -⟩ :=
    replay_table_invariants cfgPrioOne (by decide)
      [sampleTransition, sampleTransition, sampleTransition] [(1 : ℝ), 1, 8] 2 hsum
  exact ⟨by decide, hlen⟩

/-- C10: whenever `samples_per_insert` is truthy, the ratio limiter's
`error_buffer` is exactly the configured `batch_size`. -/
theorem ratio_limiter_error_buffer_is_batch_size (c : Config)
    (h : c.samples_per_insert ≠ 0) :
    ∃ t : Table, DistributedDQN.replay c = [t] ∧
      t.rate_limiter = RateLimiter.sampleToInsertRatioLimiter c.min_replay_size
        c.samples_per_insert (c.batch_size : ℚ) :=
  ⟨_, rfl, by simp [DistributedDQN.replayLimiter, h]⟩

/-- Witness for C10 at the default configuration (ratio 32, batch 256). -/
theorem ratio_limiter_error_buffer_witness :
    defaultConfig.samples_per_insert ≠ 0 ∧
      ∃ t : Table, DistributedDQN.replay defaultConfig = [t] ∧
        t.rate_limiter = RateLimiter.sampleToInsertRatioLimiter
          defaultConfig.min_replay_size defaultConfig.samples_per_insert
          (defaultConfig.batch_size : ℚ) := by
  have h : defaultConfig.samples_per_insert ≠ 0 := by
    norm_num [show defaultConfig.samples_per_insert = 32 from rfl]
  exact ⟨h, ratio_limiter_error_buffer_is_batch_size defaultConfig h⟩

/-! ## C3: the per-actor epsilon schedule -/

theorem linspace_length (a b : ℚ) (n : ℕ) : (linspace a b n).length = n := by
  unfold linspace
  split
  next h => simp [h]
  split
  next h => simp [h]
  next => simp

theorem epsilons_length (n : ℕ) : (epsilons n).length = n := by
  simp [epsilons, logspaceBase04, linspace_length]

theorem linspace_mem_bounds (a b : ℚ) (hab : a ≤ b) (n : ℕ) :
    ∀ e ∈ linspace a b n, a ≤ e ∧ e ≤ b := by
  intro e he
  unfold linspace at he
  split at he
  · simp at he
  split at he
  · simp at he
    exact ⟨he.symm.le, he.le.trans hab⟩
  next h0 h1 =>
    simp only [List.mem_map, List.mem_range] at he
    obtain ⟨i, hi, rfl⟩ := he
    have hn2 : 2 ≤ n := by omega
    have hden : (0 : ℚ) < (n : ℚ) - 1 := by
      have h2 : (2 : ℚ) ≤ (n : ℚ) := by exact_mod_cast hn2
      linarith
    constructor
    · have hpos : 0 ≤ (i : ℚ) * (b - a) / ((n : ℚ) - 1) :=
        div_nonneg (mul_nonneg (Nat.cast_nonneg i) (by linarith)) (le_of_lt hden)
      linarith
    · have hi' : (i : ℚ) ≤ (n : ℚ) - 1 := by
        have hc : (i : ℚ) + 1 ≤ (n : ℚ) := by exact_mod_cast hi
        linarith
      have hle : (i : ℚ) * (b - a) / ((n : ℚ) - 1) ≤ b - a := by
        rw [div_le_iff₀ hden]
        calc (i : ℚ) * (b - a) ≤ ((n : ℚ) - 1) * (b - a) :=
              mul_le_mul_of_nonneg_right hi' (by linarith)
          _ = (b - a) * ((n : ℚ) - 1) := mul_comm _ _
      linarith

theorem linspace_pairwise_le (a b : ℚ) (hab : a ≤ b) (n : ℕ) :
    (linspace a b n).Pairwise (fun x y => x ≤ y) := by
  unfold linspace
  split
  · exact List.Pairwise.nil
  split
  · simp
  next h0 h1 =>
    refine List.pairwise_map.mpr (List.Pairwise.imp ?_ (List.pairwise_lt_range n))
    intro i j hij
    have hn2 : 2 ≤ n := by omega
    have hden : (0 : ℚ) < (n : ℚ) - 1 := by
      have h2 : (2 : ℚ) ≤ (n : ℚ) := by exact_mod_cast hn2
      linarith
    have hij' : (i : ℚ) ≤ (j : ℚ) := by exact_mod_cast le_of_lt hij
    have hmul : (i : ℚ) * (b - a) ≤ (j : ℚ) * (b - a) :=
      mul_le_mul_of_nonneg_right hij' (by linarith)
    have hdiv : (i : ℚ) * (b - a) / ((n : ℚ) - 1) ≤ (j : ℚ) * (b - a) / ((n : ℚ) - 1) :=
      (div_le_div_iff_of_pos_right hden).mpr hmul
    linarith

/-- Counterexample to C3 as stated: already with two actors the generated
epsilon list is `[0.4^8, 0.4^1]`, which is strictly increasing in actor index
order, not non-increasing (`np.flip` hands the smallest epsilon to actor 0). -/
theorem epsilon_schedule_not_nonincreasing :
    ¬ (epsilons 2).Pairwise (fun x y => y ≤ x) := by
  have hlin : linspace 1 8 2 = [1, 8] := by
    norm_num [linspace, List.range_succ]
  have heps : epsilons 2 =
      [(0.4 : ℝ) ^ (((8 : ℚ) : ℝ)), (0.4 : ℝ) ^ (((1 : ℚ) : ℝ))] := by
    simp [epsilons, logspaceBase04, hlin]
  intro hpw
  rw [heps] at hpw
  have h01 : (0.4 : ℝ) ^ (((1 : ℚ) : ℝ)) ≤ (0.4 : ℝ) ^ (((8 : ℚ) : ℝ)) :=
    (List.pairwise_cons.mp hpw).1 _ (by simp)
  have hlt : (0.4 : ℝ) ^ (((8 : ℚ) : ℝ)) < (0.4 : ℝ) ^ (((1 : ℚ) : ℝ)) := by
    apply Real.rpow_lt_rpow_of_exponent_gt (by norm_num) (by norm_num)
    norm_num
  exact absurd h01 (not_le.mpr hlt)

/-- C3 (amended): for every `num_actors ≥ 1` the generated epsilon list is
monotonically non-decreasing in actor index order (actor 0 receives the
smallest epsilon), and every epsilon lies within the schedule's bounds
`[0.4^8, 0.4^1]`. -/
theorem epsilon_schedule_monotone_bounded (n : ℕ) (hn : 1 ≤ n) :
    (epsilons n).Pairwise (fun x y => x ≤ y) ∧
      ∀ e ∈ epsilons n, (0.4 : ℝ) ^ (8 : ℝ) ≤ e ∧ e ≤ (0.4 : ℝ) ^ (1 : ℝ) := by
  constructor
  · unfold epsilons logspaceBase04
    rw [List.pairwise_reverse]
    refine List.pairwise_map.mpr
      (List.Pairwise.imp ?_ (linspace_pairwise_le 1 8 (by norm_num) n))
    intro x y hxy
    exact Real.rpow_le_rpow_of_exponent_ge (by norm_num) (by norm_num)
      (by exact_mod_cast hxy)
  · intro e he
    unfold epsilons logspaceBase04 at he
    rw [List.mem_reverse] at he
    simp only [List.mem_map] at he
    obtain ⟨x, hx, rfl⟩ := he
    have hb := linspace_mem_bounds 1 8 (by norm_num) n x hx
    constructor
    · apply Real.rpow_le_rpow_of_exponent_ge (by norm_num) (by norm_num)
      exact_mod_cast hb.2
    · apply Real.rpow_le_rpow_of_exponent_ge (by norm_num) (by norm_num)
      exact_mod_cast hb.1

/-- Witness for the amended C3 at the spec's `num_actors = 8`. -/
theorem epsilon_schedule_monotone_bounded_witness :
    1 ≤ 8 ∧
      ((epsilons 8).Pairwise (fun x y => x ≤ y) ∧
        ∀ e ∈ epsilons 8, (0.4 : ℝ) ^ (8 : ℝ) ≤ e ∧ e ≤ (0.4 : ℝ) ^ (1 : ℝ)) :=
  ⟨by decide, epsilon_schedule_monotone_bounded 8 (by decide)⟩

/-! ## C4, C7: the wiring of the built topology -/

theorem enumFromNat_map_fst {α β : Type} (g : ℕ → β) :
    ∀ (s : ℕ) (l : List α),
      (enumFromNat s l).map (fun p => g p.1) = (List.range' s l.length).map g
  | _, [] => rfl
  | s, x :: xs => by
    show g s :: (enumFromNat (s + 1) xs).map (fun p => g p.1) = _
    rw [show List.range' s ((x :: xs).length) = s :: List.range' (s + 1) xs.length from rfl]
    rw [List.map_cons, enumFromNat_map_fst g (s + 1) xs]

theorem enumFromNat_filter_fst_length {α : Type} (g : ℕ → Bool) :
    ∀ (s : ℕ) (l : List α),
      ((enumFromNat s l).filter (fun p => g p.1)).length =
        ((List.range' s l.length).filter g).length
  | _, [] => rfl
  | s, x :: xs => by
    show (((s, x) :: enumFromNat (s + 1) xs).filter (fun p => g p.1)).length = _
    rw [show List.range' s ((x :: xs).length) = s :: List.range' (s + 1) xs.length from rfl]
    rw [List.filter_cons, List.filter_cons]
    by_cases hg : g s <;>
      simp [hg, enumFromNat_filter_fst_length g (s + 1) xs]

theorem length_filter_range_mod (m k : ℕ) (hm : 0 < m) (hk : k < m) :
    ∀ n : ℕ, ((List.range n).filter (fun i => decide (i % m = k))).length =
      n / m + if k < n % m then 1 else 0
  | 0 => by simp
  | n + 1 => by
    have ih := length_filter_range_mod m k hm hk n
    have hr : n % m < m := Nat.mod_lt _ hm
    have hqr : m * (n / m) + n % m = n := Nat.div_add_mod n m
    have hsing : (List.filter (fun i => decide (i % m = k)) [n]).length =
        if n % m = k then 1 else 0 := by
      by_cases hnk : n % m = k <;> simp [hnk]
    rw [List.range_succ, List.filter_append, List.length_append, ih, hsing]
    by_cases hend : n % m + 1 = m
    · have h1 : n + 1 = m * (n / m + 1) := by rw [Nat.mul_succ]; omega
      rw [h1, Nat.mul_div_cancel_left _ hm, Nat.mul_mod_right]
      split_ifs <;> omega
    · have h2 : n % m + 1 < m := by omega
      have h1 : n + 1 = m * (n / m) + (n % m + 1) := by omega
      rw [h1, Nat.mul_add_div hm, Nat.mul_add_mod, Nat.div_eq_of_lt h2, Nat.mod_eq_of_lt h2]
      split_ifs <;> omega

theorem build_actors_map_source (c : Config) :
    (DistributedDQN.build c).actors.map ActorNode.source =
      (List.range c.num_actors).map (fun i => VarSource.cacher (i % c.num_caches)) := by
  unfold DistributedDQN.build
  simp only [List.map_map]
  have h := enumFromNat_map_fst (α := ℝ)
    (fun i => VarSource.cacher (i % c.num_caches)) 0 (epsilons c.num_actors)
  rw [epsilons_length, ← List.range_eq_range'] at h
  exact h

theorem cacheLoad_eq_filter_range (c : Config) (k : ℕ) :
    cacheLoad c k =
      ((List.range c.num_actors).filter (fun i => decide (i % c.num_caches = k))).length := by
  unfold cacheLoad DistributedDQN.build
  rw [List.filter_map, List.length_map]
  rw [List.filter_congr (fun p _ => by
    show _ = decide (p.1 % c.num_caches = k)
    simp [Function.comp])]
  have h := enumFromNat_filter_fst_length (α := ℝ)
    (fun i => decide (i % c.num_caches = k)) 0 (epsilons c.num_actors)
  rw [epsilons_length, ← List.range_eq_range'] at h
  exact h

theorem cacheLoad_formula (c : Config) (hm : 1 ≤ c.num_caches) (k : ℕ)
    (hk : k < c.num_caches) :
    cacheLoad c k = c.num_actors / c.num_caches +
      if k < c.num_actors % c.num_caches then 1 else 0 := by
  rw [cacheLoad_eq_filter_range, length_filter_range_mod _ _ hm hk]

/-- C4: `build()` wires actor `i` to cacher `i % num_caches`, and therefore
the numbers of actors reading from any two caches differ by at most one. -/
theorem actor_round_robin_balanced (c : Config) (hm : 1 ≤ c.num_caches) :
    ((DistributedDQN.build c).actors.map ActorNode.source =
      (List.range c.num_actors).map (fun i => VarSource.cacher (i % c.num_caches))) ∧
    ∀ k1 k2, k1 < c.num_caches → k2 < c.num_caches →
      cacheLoad c k1 ≤ cacheLoad c k2 + 1 := by
  refine ⟨build_actors_map_source c, fun k1 k2 hk1 hk2 => ?_⟩
  rw [cacheLoad_formula c hm k1 hk1, cacheLoad_formula c hm k2 hk2]
  split_ifs <;> omega

/-- Witness for C4 at the spec's example, 10 actors over 3 caches. -/
theorem actor_round_robin_balanced_witness :
    1 ≤ cfgRoundRobin.num_caches ∧
      cacheLoad cfgRoundRobin 0 ≤ cacheLoad cfgRoundRobin 1 + 1 :=
  ⟨by decide,
    (actor_round_robin_balanced cfgRoundRobin (by decide)).2 0 1 (by decide) (by decide)⟩

/-- C7: every evaluator node of the built topology reads from the learner
node itself (their ids are 0..num_evaluators-1), never from a cacher, while
every actor node reads from one of the `num_caches` cacher nodes. -/
theorem evaluators_read_learner_actors_read_cachers (c : Config)
    (hm : 1 ≤ c.num_caches) :
    ((DistributedDQN.build c).evaluators.map EvalNode.evalId =
      List.range c.num_evaluators) ∧
    (∀ e ∈ (DistributedDQN.build c).evaluators, e.source = VarSource.learner) ∧
    (∀ a ∈ (DistributedDQN.build c).actors,
      ∃ j, j < c.num_caches ∧ a.source = VarSource.cacher j) := by
  refine ⟨?_, fun e he => ?_, fun a ha => ?_⟩
  · simp only [DistributedDQN.build, List.map_map]
    exact List.map_id _
  · simp only [DistributedDQN.build, List.mem_map] at he
    obtain ⟨i, -, rfl⟩ := he
    rfl
  · simp only [DistributedDQN.build, List.mem_map] at ha
    obtain ⟨p, -, rfl⟩ := ha
    exact ⟨p.1 % c.num_caches, Nat.mod_lt _ hm, rfl⟩

/-- Witness for C7 at a configuration with 2 caches and 3 evaluators. -/
theorem evaluators_read_learner_witness :
    1 ≤ cfgTopology.num_caches ∧
      ∀ e ∈ (DistributedDQN.build cfgTopology).evaluators,
        e.source = VarSource.learner :=
  ⟨by decide,
    (evaluators_read_learner_actors_read_cachers cfgTopology (by decide)).2.1⟩

/-! ## C5, C6, C8, C9: actor and evaluator construction -/

theorem fetchBefore_of_construction (ctor : List ProcEvent) (u : ℕ)
    (hu : u < ctor.length)
    (huw : ctor.getD u ProcEvent.makeNetwork = ProcEvent.updateAndWait)
    (hno : ∀ k, ProcEvent.envAction k ∉ ctor) (steps : ℕ) :
    fetchBeforeAction (ctor ++ (List.range steps).map ProcEvent.envAction) := by
  intro i k hik
  refine ⟨u, ?_, ?_⟩
  · by_contra hui
    have hi_lt : i < ctor.length := lt_of_le_of_lt (not_lt.mp hui) hu
    rw [List.getD_append _ _ _ _ hi_lt, List.getD_eq_getElem ctor _ hi_lt] at hik
    exact hno k (hik ▸ List.getElem_mem hi_lt)
  · rw [List.getD_append _ _ _ _ hu]
    exact huw

/-- C5: both in `DistributedDQN.actor` and in `DistributedDQN.evaluator` the
blocking `variable_client.update_and_wait()` happens before the environment
loop is created (construction step 4, with the loop created last), so no
environment action of either process precedes its first completed parameter
fetch. -/
theorem initial_fetch_before_env_actions (steps eval_id : ℕ) :
    ((actorTrace steps).getD 4 ProcEvent.makeNetwork = ProcEvent.updateAndWait ∧
      (actorTrace steps).getD 10 ProcEvent.makeNetwork = ProcEvent.createEnvLoop ∧
      fetchBeforeAction (actorTrace steps)) ∧
    ((evaluatorTrace eval_id steps).getD 4 ProcEvent.makeNetwork =
        ProcEvent.updateAndWait ∧
      (evaluatorTrace eval_id steps).getD 7 ProcEvent.makeNetwork =
        ProcEvent.createEvaluatorLoop ∧
      fetchBeforeAction (evaluatorTrace eval_id steps)) := by
  refine ⟨⟨?_, ?_, ?_⟩, ⟨?_, ?_, ?_⟩⟩
  · rw [actorTrace, List.getD_append _ _ _ _ (by decide)]
    rfl
  · rw [actorTrace, List.getD_append _ _ _ _ (by decide)]
    rfl
  · exact fetchBefore_of_construction actorConstructionTrace 4 (by decide) rfl
      (fun k => by simp [actorConstructionTrace]) steps
  · rw [evaluatorTrace,
      List.getD_append _ _ _ _ (by simp [evaluatorConstructionTrace])]
    rfl
  · rw [evaluatorTrace,
      List.getD_append _ _ _ _ (by simp [evaluatorConstructionTrace])]
    rfl
  · exact fetchBefore_of_construction (evaluatorConstructionTrace eval_id) 4
      (by simp [evaluatorConstructionTrace]) rfl
      (fun k => by simp [evaluatorConstructionTrace]) steps

/-- C6: the evaluator with id 0 asks the environment factory for the
training-distribution environment (argument `False`), and every evaluator
with a positive id asks for the held-out variant (argument `True`). -/
theorem evaluator_env_variant (c : Config) (eval_id : ℕ) :
    (eval_id = 0 → (DistributedDQN.evaluator c eval_id).envFactoryArg = false) ∧
    (0 < eval_id → (DistributedDQN.evaluator c eval_id).envFactoryArg = true) := by
  constructor <;> intro h <;> simp [DistributedDQN.evaluator, h]

/-- C8: the priority function the actor's adder carries for the default
priority table is the constant `default_priority`, independent of the
transition it is applied to. -/
theorem actor_priority_fn_constant (c : Config) :
    ∃ f, (DistributedDQN.actorAdder c).priority_fns.lookup DEFAULT_PRIORITY_TABLE =
        some f ∧
      (∀ x : Transition, f x = c.default_priority) ∧
      (∀ x y : Transition, f x = f y) := by
  refine ⟨fun _ => c.default_priority, ?_, fun _ => rfl, fun _ _ => rfl⟩
  simp [DistributedDQN.actorAdder, List.lookup]

/-- C9: the constructor's `assert num_caches >= 1` is its first statement:
construction fails with an assertion error for every `num_caches < 1` and
succeeds (storing the fields) for every `num_caches ≥ 1`. -/
theorem init_asserts_num_caches (num_actors : ℕ) (num_caches : ℤ) (batch_size : ℕ)
    (samples_per_insert : ℚ) (min_replay_size : ℕ) (max_replay_size : ℕ)
    (priority_exponent : ℚ) (default_priority : ℚ) (n_step : ℕ) (discount : ℚ)
    (variable_update_period : ℕ) (max_actor_steps : ℕ) (num_evaluators : ℕ) :
    (num_caches < 1 →
      DistributedDQN.init num_actors num_caches batch_size samples_per_insert
        min_replay_size max_replay_size priority_exponent default_priority n_step
        discount variable_update_period max_actor_steps num_evaluators =
      Except.error InitError.assertionError) ∧
    (1 ≤ num_caches →
      ∃ cfg : Config,
        DistributedDQN.init num_actors num_caches batch_size samples_per_insert
          min_replay_size max_replay_size priority_exponent default_priority n_step
          discount variable_update_period max_actor_steps num_evaluators =
        Except.ok cfg ∧ cfg.num_caches = num_caches.toNat) := by
  constructor <;> intro h
  · simp [DistributedDQN.init, h]
  · unfold DistributedDQN.init
    rw [if_neg (not_lt.mpr h)]
    exact ⟨_, rfl, rfl⟩

end BrainAutorl
